import Mathlib

/-!
Shallow embedding of the configuration cascade, the virtual-desktop switch
entry point and the synthetic-fullscreen command of Seelen-UI.

The Rust sources embedded here are:
- `src/background/state/mod.rs` : `FullState::is_weg_enabled`,
  `is_weg_enabled_on_monitor`, `is_bar_enabled`, `is_bar_enabled_on_monitor`,
  `get_wm_layout_id`;
- `src/background/exposed.rs` : `simulate_fullscreen`, `switch_workspace`.

A `Monitor` is embedded as the outcome of its `display_device()` OS lookup
(the only operation the embedded code performs on it); the settings
`HashMap<String, MonitorConfig>` is embedded as an association list with
unique keys, looked up with `List.lookup`.
-/

namespace Seelen

/-- The display device returned by `Monitor::display_device`; the embedded
code only reads its `id`. -/
structure DisplayDevice where
  id : String
deriving DecidableEq

/-- A monitor, embedded as the result of its `display_device()` lookup,
which can fail on a stale or invalid handle. -/
structure Monitor where
  display_device : Except Unit DisplayDevice

/-- A feature toggle inside a per-monitor override (`config.weg` /
`config.tb` in the Rust settings types). -/
structure FeatureToggle where
  enabled : Bool
deriving DecidableEq

/-- Per-workspace configuration: an optional layout id override. -/
structure WorkspaceConfig where
  layout : Option String
deriving DecidableEq

/-- Per-monitor override entry of the settings map `monitors_v2`: the `weg`
and `tb` toggles and the ordered workspace list, exactly the fields the
embedded code reads. -/
structure MonitorConfig where
  weg : FeatureToggle
  tb : FeatureToggle
  workspaces_v2 : List WorkspaceConfig
deriving DecidableEq

/-- Global SeelenWeg settings section. -/
structure SeelenWegSettings where
  enabled : Bool
deriving DecidableEq

/-- Global fancy-toolbar settings section. -/
structure FancyToolbarSettings where
  enabled : Bool
deriving DecidableEq

/-- Global window-manager settings section. -/
structure WindowManagerSettings where
  enabled : Bool
  default_layout : String
deriving DecidableEq

/-- The settings snapshot: global sections plus the per-monitor override
map keyed by device id (unique keys). -/
structure Settings where
  seelenweg : SeelenWegSettings
  fancy_toolbar : FancyToolbarSettings
  window_manager : WindowManagerSettings
  monitors_v2 : List (String × MonitorConfig)
deriving DecidableEq

/-- The application state; the embedded methods only read `settings`. -/
structure FullState where
  settings : Settings
deriving DecidableEq

/-- `FullState::is_weg_enabled`: the global `seelenweg.enabled` flag. -/
def FullState.is_weg_enabled (s : FullState) : Bool :=
  s.settings.seelenweg.enabled

/-- `FullState::is_weg_enabled_on_monitor`: global flag when the device
lookup fails or the device id has no override entry; otherwise the global
flag conjoined with the entry's `weg.enabled`. -/
def FullState.is_weg_enabled_on_monitor (s : FullState) (monitor : Monitor) : Bool :=
  let is_global_enabled := s.is_weg_enabled
  match monitor.display_device with
  | Except.error _ => is_global_enabled
  | Except.ok device =>
    match s.settings.monitors_v2.lookup device.id with
    | some config => is_global_enabled && config.weg.enabled
    | none => is_global_enabled

/-- `FullState::is_bar_enabled`: the global `fancy_toolbar.enabled` flag. -/
def FullState.is_bar_enabled (s : FullState) : Bool :=
  s.settings.fancy_toolbar.enabled

/-- `FullState::is_bar_enabled_on_monitor`: global flag when the device
lookup fails or the device id has no override entry; otherwise the global
flag conjoined with the entry's `tb.enabled`. -/
def FullState.is_bar_enabled_on_monitor (s : FullState) (monitor : Monitor) : Bool :=
  let is_global_enabled := s.is_bar_enabled
  match monitor.display_device with
  | Except.error _ => is_global_enabled
  | Except.ok device =>
    match s.settings.monitors_v2.lookup device.id with
    | some config => is_global_enabled && config.tb.enabled
    | none => is_global_enabled

/-- `FullState::get_wm_layout_id`: the workspace's layout when the device
lookup succeeds, the device id has an override entry, the workspace index is
in range and the workspace carries a layout; the global default layout in
every other case. -/
def FullState.get_wm_layout_id (s : FullState) (monitor : Monitor) (workspace_idx : Nat) :
    String :=
  let default := s.settings.window_manager.default_layout
  match monitor.display_device with
  | Except.error _ => default
  | Except.ok device =>
    match s.settings.monitors_v2.lookup device.id with
    | some config =>
      match config.workspaces_v2[workspace_idx]? with
      | some workspace => workspace.layout.getD default
      | none => default
    | none => default

/-- Payload of the synthetic fullscreen events: the window handle and the
monitor handle, both plain OS handles embedded as naturals. -/
structure SyntheticFullscreenData where
  handle : Nat
  monitor : Nat
deriving DecidableEq

/-- The canonical window-event type; only the two synthetic fullscreen
variants are constructed by the embedded code. -/
inductive WinEvent where
  | SyntheticFullscreenStart (data : SyntheticFullscreenData)
  | SyntheticFullscreenEnd (data : SyntheticFullscreenData)
deriving DecidableEq

/-- Number of `SyntheticFullscreenStart` events in an emitted sequence. -/
def countStarts (events : List WinEvent) : Nat :=
  events.countP fun e =>
    match e with
    | WinEvent.SyntheticFullscreenStart _ => true
    | _ => false

/-- Number of `SyntheticFullscreenEnd` events in an emitted sequence. -/
def countEnds (events : List WinEvent) : Nat :=
  events.countP fun e =>
    match e with
    | WinEvent.SyntheticFullscreenEnd _ => true
    | _ => false

/-- `simulate_fullscreen` of `exposed.rs`, embedded as a function returning
the sequence of events passed to `HookManager::emit_event` during the call.
`monitor_from_window` embeds the `WindowsApi::monitor_from_window` OS query
and `hwnd` the fallible `webview.hwnd()` lookup; when the latter fails the
call fails via `?` and emits nothing, otherwise a single event is built
(`SyntheticFullscreenStart` when `value` is true, `SyntheticFullscreenEnd`
otherwise) and emitted. -/
def simulate_fullscreen (monitor_from_window : Nat → Nat)
    (hwnd : Except Unit Nat) (value : Bool) : Except Unit (List WinEvent) :=
  match hwnd with
  | Except.error e => Except.error e
  | Except.ok handle =>
    let monitor := monitor_from_window handle
    let event :=
      if value then
        WinEvent.SyntheticFullscreenStart ⟨handle, monitor⟩
      else
        WinEvent.SyntheticFullscreenEnd ⟨handle, monitor⟩
    Except.ok [event]

/-- Error taxonomy of the virtual-desktop manager, as far as the embedded
claims need it. -/
inductive VdError where
  | InvalidDesktopIndex
deriving DecidableEq

/-- State of the virtual-desktop manager: the known desktop count and the
authoritative current desktop index. -/
structure VirtualDesktopManager where
  desktop_count : Nat
  current : Nat
deriving DecidableEq

/-- Modelled from the spec: `switch_to(index)` of the Virtual Desktop
Manager, whose implementation is not among the provided sources (only its
caller `switch_workspace` is). Per the spec it fails with the invalid-index
error when `index` is out of the known desktop count, leaving state
unchanged, and otherwise performs the switch, the authoritative current
index being updated on completion. -/
def VirtualDesktopManager.switch_to (vd : VirtualDesktopManager) (idx : Nat) :
    Except VdError Unit × VirtualDesktopManager :=
  if idx < vd.desktop_count then
    (Except.ok (), { vd with current := idx })
  else
    (Except.error VdError.InvalidDesktopIndex, vd)

/-- `switch_workspace` of `exposed.rs`: delegates to the virtual-desktop
manager's `switch_to`. -/
def switch_workspace (vd : VirtualDesktopManager) (idx : Nat) :
    Except VdError Unit × VirtualDesktopManager :=
  vd.switch_to idx

/-- A per-monitor configuration as the spec describes the middle level of
the layout cascade: an optional monitor-level default layout in addition to
the workspace list. -/
structure SpecMonitorConfig where
  default_layout : Option String
  workspaces : List WorkspaceConfig
deriving DecidableEq

/-- Modelled from the spec: `resolve_layout(monitor, workspace_index)` with
its three-level fallback — explicit per-workspace layout, else per-monitor
default, else global default; any miss (unknown monitor, out-of-range
workspace index, absent field) falls through to the next level. Stated over
`SpecMonitorConfig`, whose monitor-level default layout field has no
counterpart in the sources; used only to compare the spec's cascade with
`FullState.get_wm_layout_id`. -/
def resolve_layout_spec (global_default : String)
    (monitors : List (String × SpecMonitorConfig)) (device_id : Option String)
    (workspace_idx : Nat) : String :=
  match device_id with
  | none => global_default
  | some id =>
    match monitors.lookup id with
    | none => global_default
    | some config =>
      match config.workspaces[workspace_idx]? with
      | some workspace =>
        match workspace.layout with
        | some layout => layout
        | none => config.default_layout.getD global_default
      | none => config.default_layout.getD global_default

/-- Erase a spec-level monitor config to the code-level one: drop the
monitor default layout, keep the toggles given and the workspace list. -/
def eraseSpecConfig (weg tb : FeatureToggle) (config : SpecMonitorConfig) : MonitorConfig :=
  ⟨weg, tb, config.workspaces⟩

/-- The chained Option lookup underlying `get_wm_layout_id`: the layout of
workspace `workspace_idx` of the monitor's override entry, when the device
lookup, the map lookup, the index and the layout field all hit. -/
def workspace_layout_lookup (s : FullState) (monitor : Monitor) (workspace_idx : Nat) :
    Option String :=
  match monitor.display_device with
  | Except.error _ => none
  | Except.ok device =>
    (s.settings.monitors_v2.lookup device.id).bind fun config =>
      (config.workspaces_v2[workspace_idx]?).bind fun workspace => workspace.layout

/-- Fixture for overriding claims: both global flags disabled, one override
entry for device `D1` enabling both features. -/
def c1State : FullState :=
  ⟨⟨⟨false⟩, ⟨false⟩, ⟨true, "bsp"⟩, [("D1", ⟨⟨true⟩, ⟨true⟩, []⟩)]⟩⟩

/-- Fixture monitor whose device lookup yields id `D1`. -/
def c1Monitor : Monitor :=
  ⟨Except.ok ⟨"D1"⟩⟩

/-- Fixture for the scenario claims: both global flags enabled, an override
entry for `DISPLAY1` disabling weg, `DISPLAY2` absent from the map. -/
def c6State : FullState :=
  ⟨⟨⟨true⟩, ⟨true⟩, ⟨true, "bsp"⟩, [("DISPLAY1", ⟨⟨false⟩, ⟨true⟩, []⟩)]⟩⟩

/-- Fixture monitor with device id `DISPLAY1`. -/
def display1Monitor : Monitor :=
  ⟨Except.ok ⟨"DISPLAY1"⟩⟩

/-- Fixture monitor with device id `DISPLAY2`. -/
def display2Monitor : Monitor :=
  ⟨Except.ok ⟨"DISPLAY2"⟩⟩

/-- Fixture monitor whose device lookup fails (stale handle). -/
def staleMonitor : Monitor :=
  ⟨Except.error ()⟩

/-- Fixture for the layout scenario: global default layout `bsp`, the
`DISPLAY1` entry holding three workspaces, workspace 2 with no layout. -/
def c7State : FullState :=
  ⟨⟨⟨true⟩, ⟨true⟩, ⟨true, "bsp"⟩,
    [("DISPLAY1", ⟨⟨true⟩, ⟨true⟩, [⟨some "vertical"⟩, ⟨some "horizontal"⟩, ⟨none⟩]⟩)]⟩⟩

/-- Fixture spec-level monitor entry with a monitor-level default layout
`grid` and one workspace with no layout override. -/
def c2SpecConfig : SpecMonitorConfig :=
  ⟨some "grid", [⟨none⟩]⟩

/-- The code-level state corresponding to `c2SpecConfig` under erasure:
global default `bsp`, one entry for `D1`. -/
def c2State : FullState :=
  ⟨⟨⟨true⟩, ⟨true⟩, ⟨true, "bsp"⟩, [("D1", eraseSpecConfig ⟨true⟩ ⟨true⟩ c2SpecConfig)]⟩⟩

/-- C1: the claim that an override entry's value is returned regardless of
the global default is false: with the global weg and toolbar flags disabled
and an override entry enabling both, the effective per-monitor flags are
still false — the code conjoins the global flag with the entry's value. -/
theorem C1_counterexample :
    c1State.settings.monitors_v2.lookup "D1" = some ⟨⟨true⟩, ⟨true⟩, []⟩ ∧
    c1State.is_weg_enabled_on_monitor c1Monitor = false ∧
    c1State.is_bar_enabled_on_monitor c1Monitor = false := by
  decide

/-- C1 (amended): for every monitor whose device id has an override entry,
`is_weg_enabled_on_monitor` returns the conjunction of the global
`seelenweg.enabled` flag with the entry's `weg.enabled`, and
`is_bar_enabled_on_monitor` the conjunction of the global
`fancy_toolbar.enabled` flag with the entry's `tb.enabled`. -/
theorem C1_amended (s : FullState) (m : Monitor) (device : DisplayDevice)
    (config : MonitorConfig)
    (hdev : m.display_device = Except.ok device)
    (hcfg : s.settings.monitors_v2.lookup device.id = some config) :
    s.is_weg_enabled_on_monitor m = (s.is_weg_enabled && config.weg.enabled) ∧
    s.is_bar_enabled_on_monitor m = (s.is_bar_enabled && config.tb.enabled) := by
  constructor <;>
    simp [FullState.is_weg_enabled_on_monitor, FullState.is_bar_enabled_on_monitor,
      hdev, hcfg]

/-- Witness for C1 (amended) at the `c1State` fixture. -/
theorem C1_witness :
    c1State.is_weg_enabled_on_monitor c1Monitor = (c1State.is_weg_enabled && true) ∧
    c1State.is_bar_enabled_on_monitor c1Monitor = (c1State.is_bar_enabled && true) :=
  C1_amended c1State c1Monitor ⟨"D1"⟩ ⟨⟨true⟩, ⟨true⟩, []⟩ rfl (by decide)

/-- C2: the claimed three-level cascade is false on the code: at a state
whose override entry carries a monitor-level default layout `grid` (a field
the source's `MonitorConfig` does not have) and whose workspace 0 has no
layout, the spec's cascade resolves `grid` while `get_wm_layout_id` on the
corresponding code state returns the global default `bsp` — the
monitor-default level is never consulted. -/
theorem C2_counterexample :
    resolve_layout_spec "bsp" [("D1", c2SpecConfig)] (some "D1") 0 = "grid" ∧
    c2State.get_wm_layout_id c1Monitor 0 = "bsp" := by
  decide

/-- C2 (amended): `get_wm_layout_id` performs a two-level fallback: the
explicit per-workspace layout when the device lookup, the override entry,
the workspace index and the layout field all hit, else the global default
layout; there is no per-monitor default layout level. -/
theorem C2_amended (s : FullState) (m : Monitor) (idx : Nat) :
    s.get_wm_layout_id m idx =
      (workspace_layout_lookup s m idx).getD s.settings.window_manager.default_layout := by
  rcases m with ⟨dd⟩
  cases dd with
  | error e => rfl
  | ok device =>
    simp only [FullState.get_wm_layout_id, workspace_layout_lookup]
    cases hc : s.settings.monitors_v2.lookup device.id with
    | none => rfl
    | some config =>
      cases hw : config.workspaces_v2[idx]? with
      | none => simp [hw]
      | some workspace =>
        cases hl : workspace.layout <;> simp [hw, hl]

/-- C3: for every monitor whose device id is absent from the override map,
the effective weg flag equals the global `seelenweg.enabled` and the
effective toolbar flag equals the global `fancy_toolbar.enabled`. -/
theorem C3_no_override_uses_global (s : FullState) (m : Monitor) (device : DisplayDevice)
    (hdev : m.display_device = Except.ok device)
    (hnone : s.settings.monitors_v2.lookup device.id = none) :
    s.is_weg_enabled_on_monitor m = s.is_weg_enabled ∧
    s.is_bar_enabled_on_monitor m = s.is_bar_enabled := by
  constructor <;>
    simp [FullState.is_weg_enabled_on_monitor, FullState.is_bar_enabled_on_monitor,
      hdev, hnone]

/-- Witness for C3 at the `c6State` fixture, device `DISPLAY2` absent. -/
theorem C3_witness :
    c6State.is_weg_enabled_on_monitor display2Monitor = c6State.is_weg_enabled ∧
    c6State.is_bar_enabled_on_monitor display2Monitor = c6State.is_bar_enabled :=
  C3_no_override_uses_global c6State display2Monitor ⟨"DISPLAY2"⟩ rfl (by decide)

/-- C4: the claim that every call emits a start/end pair is false: a single
successful call with `value = true` emits exactly one event, a
`SyntheticFullscreenStart`, and zero `SyntheticFullscreenEnd` events. -/
theorem C4_counterexample :
    simulate_fullscreen (fun _ => 7) (Except.ok 1) true =
      Except.ok [WinEvent.SyntheticFullscreenStart ⟨1, 7⟩] ∧
    (simulate_fullscreen (fun _ => 7) (Except.ok 1) true).map countEnds =
      Except.ok 0 :=
  ⟨rfl, rfl⟩

/-- C4 (amended): every successful call to `simulate_fullscreen` emits
exactly one synthetic event: a `SyntheticFullscreenStart` when `value` is
true and a `SyntheticFullscreenEnd` when `value` is false; the start/end
pair comes from a pair of calls, not from one. -/
theorem C4_amended (mfw : Nat → Nat) (handle : Nat) (value : Bool) :
    (simulate_fullscreen mfw (Except.ok handle) value).map
        (fun es => (es.length, countStarts es, countEnds es)) =
      Except.ok (1, if value then 1 else 0, if value then 0 else 1) := by
  cases value <;> rfl

/-- C5: for every index at or beyond the known desktop count,
`switch_workspace` returns the invalid-desktop-index error and the manager
state, in particular the authoritative current index, is unchanged. -/
theorem C5_invalid_index (vd : VirtualDesktopManager) (idx : Nat)
    (h : vd.desktop_count ≤ idx) :
    switch_workspace vd idx = (Except.error VdError.InvalidDesktopIndex, vd) ∧
    (switch_workspace vd idx).2.current = vd.current := by
  have hlt : ¬ idx < vd.desktop_count := by omega
  unfold switch_workspace VirtualDesktopManager.switch_to
  rw [if_neg hlt]
  exact ⟨rfl, rfl⟩

/-- Witness for C5: two desktops, request index 5. -/
theorem C5_witness :
    switch_workspace ⟨2, 0⟩ 5 = (Except.error VdError.InvalidDesktopIndex, ⟨2, 0⟩) ∧
    (switch_workspace ⟨2, 0⟩ 5).2.current = (0 : Nat) :=
  C5_invalid_index ⟨2, 0⟩ 5 (by decide)

/-- C6: with the global weg flag enabled, an override entry for `DISPLAY1`
disabling weg and no entry for `DISPLAY2`, the effective weg flag is false
on `DISPLAY1` and true on `DISPLAY2`. -/
theorem C6_scenario :
    c6State.is_weg_enabled = true ∧
    c6State.is_weg_enabled_on_monitor display1Monitor = false ∧
    c6State.is_weg_enabled_on_monitor display2Monitor = true := by
  decide

/-- C7: with workspace 2 of `DISPLAY1` carrying no layout override, no
monitor-level default in the data model and global default layout `bsp`,
the resolved layout for workspace 2 of `DISPLAY1` is `bsp`. -/
theorem C7_scenario :
    c7State.get_wm_layout_id display1Monitor 2 = "bsp" := by
  decide

/-- C8: the three resolvers are total: on every state, monitor and index
the returned value traces to a cascade level — the global value, or (when
every Option-returning lookup hits) the override-derived value; no input
yields an error. -/
theorem C8_total (s : FullState) (m : Monitor) (idx : Nat) :
    (s.is_weg_enabled_on_monitor m = s.is_weg_enabled ∨
      ∃ device config, m.display_device = Except.ok device ∧
        s.settings.monitors_v2.lookup device.id = some config ∧
        s.is_weg_enabled_on_monitor m = (s.is_weg_enabled && config.weg.enabled)) ∧
    (s.is_bar_enabled_on_monitor m = s.is_bar_enabled ∨
      ∃ device config, m.display_device = Except.ok device ∧
        s.settings.monitors_v2.lookup device.id = some config ∧
        s.is_bar_enabled_on_monitor m = (s.is_bar_enabled && config.tb.enabled)) ∧
    (s.get_wm_layout_id m idx = s.settings.window_manager.default_layout ∨
      ∃ device config workspace layout, m.display_device = Except.ok device ∧
        s.settings.monitors_v2.lookup device.id = some config ∧
        config.workspaces_v2[idx]? = some workspace ∧
        workspace.layout = some layout ∧
        s.get_wm_layout_id m idx = layout) := by
  rcases m with ⟨dd⟩
  cases dd with
  | error e =>
    exact ⟨Or.inl rfl, Or.inl rfl, Or.inl rfl⟩
  | ok device =>
    refine ⟨?_, ?_, ?_⟩ <;>
      simp only [FullState.is_weg_enabled_on_monitor, FullState.is_bar_enabled_on_monitor,
        FullState.get_wm_layout_id]
    · cases hc : s.settings.monitors_v2.lookup device.id with
      | none => exact Or.inl (by simp [hc])
      | some config => exact Or.inr ⟨device, config, rfl, hc, by simp [hc]⟩
    · cases hc : s.settings.monitors_v2.lookup device.id with
      | none => exact Or.inl (by simp [hc])
      | some config => exact Or.inr ⟨device, config, rfl, hc, by simp [hc]⟩
    · cases hc : s.settings.monitors_v2.lookup device.id with
      | none => exact Or.inl (by simp [hc])
      | some config =>
        cases hw : config.workspaces_v2[idx]? with
        | none => exact Or.inl (by simp [hc, hw])
        | some workspace =>
          cases hl : workspace.layout with
          | none => exact Or.inl (by simp [hc, hw, hl, Option.getD])
          | some layout =>
            exact Or.inr ⟨device, config, workspace, layout, rfl, hc, hw, hl,
              by simp [hc, hw, hl, Option.getD]⟩

/-- C9: the effective per-monitor flag implies the global flag: whenever
`is_weg_enabled_on_monitor` (resp. `is_bar_enabled_on_monitor`) is true,
`is_weg_enabled` (resp. `is_bar_enabled`) is true — the effective flag is
monotone in the global one. -/
theorem C9_monotone (s : FullState) (m : Monitor) :
    (s.is_weg_enabled_on_monitor m = true → s.is_weg_enabled = true) ∧
    (s.is_bar_enabled_on_monitor m = true → s.is_bar_enabled = true) := by
  rcases m with ⟨dd⟩
  cases dd with
  | error e => exact ⟨fun h => h, fun h => h⟩
  | ok device =>
    cases hc : s.settings.monitors_v2.lookup device.id with
    | none =>
      refine ⟨fun h => ?_, fun h => ?_⟩ <;>
        simpa [FullState.is_weg_enabled_on_monitor, FullState.is_bar_enabled_on_monitor,
          hc] using h
    | some config =>
      refine ⟨fun h => ?_, fun h => ?_⟩
      · have h' := h
        simp [FullState.is_weg_enabled_on_monitor, hc] at h'
        exact h'.1
      · have h' := h
        simp [FullState.is_bar_enabled_on_monitor, hc] at h'
        exact h'.1

/-- Witness for C9 at the `c6State` fixture with monitor `DISPLAY2`. -/
theorem C9_witness :
    c6State.is_weg_enabled = true ∧ c6State.is_bar_enabled = true :=
  ⟨(C9_monotone c6State display2Monitor).1 (by decide),
    (C9_monotone c6State display2Monitor).2 (by decide)⟩

/-- C10: for every monitor whose device lookup fails, the three resolvers
return the corresponding global value — the override map is not consulted
and no error is raised. -/
theorem C10_stale_handle (s : FullState) (m : Monitor) (idx : Nat)
    (h : m.display_device = Except.error ()) :
    s.is_weg_enabled_on_monitor m = s.is_weg_enabled ∧
    s.is_bar_enabled_on_monitor m = s.is_bar_enabled ∧
    s.get_wm_layout_id m idx = s.settings.window_manager.default_layout := by
  refine ⟨?_, ?_, ?_⟩ <;>
    simp [FullState.is_weg_enabled_on_monitor, FullState.is_bar_enabled_on_monitor,
      FullState.get_wm_layout_id, h]

/-- Witness for C10 at the `c6State` fixture with a stale monitor. -/
theorem C10_witness :
    c6State.is_weg_enabled_on_monitor staleMonitor = c6State.is_weg_enabled ∧
    c6State.is_bar_enabled_on_monitor staleMonitor = c6State.is_bar_enabled ∧
    c6State.get_wm_layout_id staleMonitor 0 =
      c6State.settings.window_manager.default_layout :=
  C10_stale_handle c6State staleMonitor 0 rfl

end Seelen
